import Mathlib

/-
Verification of the BaseApp application coordinator of this cosmos-sdk
repository against its natural-language specification.

The repository ships the ABCI test-suite (baseapp/abci_test.go), the gov
module genesis logic (x/gov/genesis.go) and auxiliary test files; the BaseApp
implementation itself is not part of the source tree.  Where a definition
embeds code that is absent, its doc comment starts with "Modelled from the
spec:" and names the missing piece; the behaviour of every such definition is
cross-checked against the concrete expectations recorded in the test files
that are present.
-/

namespace CosmosSdk

/-- A key-value store embedded as an association list of string keys and
values; a later `set` shadows earlier bindings for the same key. -/
def Store := List (String × String)

instance : DecidableEq Store := inferInstanceAs (DecidableEq (List (String × String)))

/-- Read a key: the most recently written binding wins. -/
def Store.get : Store → String → Option String
  | [], _ => none
  | (k, v) :: rest, key => if k = key then some v else Store.get rest key

/-- Write a key; the new binding shadows any previous one. -/
def Store.set (s : Store) (k v : String) : Store := (k, v) :: s

/-- The empty store. -/
def Store.empty : Store := []

/-- Merge an overlay into a base store: the overlay's bindings shadow the
base, matching `ovGet`. -/
def Store.merge (ov base : Store) : Store := List.append ov base

theorem Store.get_set_same (s : Store) (k v : String) :
    (s.set k v).get k = some v := by
  simp [Store.set, Store.get]

theorem Store.get_set_other (s : Store) (k k' v : String) (h : k ≠ k') :
    (s.set k v).get k' = s.get k' := by
  simp [Store.set, Store.get, h]

/-- Reading through an overlay branch: a binding in the overlay shadows the
base store. -/
def ovGet (ov base : Store) (k : String) : Option String :=
  match ov.get k with
  | some v => some v
  | none => base.get k

/- ----------------------------------------------------------------------
Gas metering.

The gas meter implementation lives in the external store module; its
observable behaviour is pinned down by the expected-result tables of
TestABCI_TxGasLimits and TestABCI_MaxBlockGasLimits in
src/baseapp/abci_test.go: consuming a charge adds the full charge to the
consumed counter first and only then signals out-of-gas when the counter
exceeds the limit, so a failing transaction reports a gas-used value that
can exceed its gas-wanted (e.g. the table row with charges 9 and 2 under a
limit of 10 expects gasUsed = 11).
---------------------------------------------------------------------- -/

/-- Modelled from the spec: the per-transaction gas meter of §2 and §4.2
(the gas meter implementation is not under src/).  `consumeCharges limit
consumed charges` folds the remaining charges: each charge is added to the
running `consumed` total in full, and the fold stops with failure as soon as
the total exceeds `limit`.  Returns (final consumed total, success flag).
The semantics reproduces the expected gasUsed column of
TestABCI_TxGasLimits in src/baseapp/abci_test.go. -/
def consumeCharges (limit : Nat) : Nat → List Nat → Nat × Bool
  | consumed, [] => (consumed, true)
  | consumed, c :: cs =>
    if limit < consumed + c then (consumed + c, false)
    else consumeCharges limit (consumed + c) cs

/-- Modelled from the spec: the transaction pipeline's gas accounting of
§4.2 (runTx is not under src/).  A transaction is embedded as its ordered
list of gas charges (the ante charge followed by one charge per message);
`gasWanted` is the limit the ante handler installs on the per-transaction
meter.  Returns (gasUsed, success). -/
def txRun (gasWanted : Nat) (charges : List Nat) : Nat × Bool :=
  consumeCharges gasWanted 0 charges

/-- The outcome of delivering one transaction inside a block. -/
inductive TxOutcome where
  | ok (gasUsed : Nat)
  | outOfGas (gasUsed : Nat)
deriving DecidableEq, Repr

/-- Modelled from the spec: deliver-mode execution of one transaction under
the shared per-block gas meter, §4.2 (runTx in deliver mode is not under
src/).  The transaction first runs on its own meter; its gas use (capped at
its gas-wanted, the GasConsumedToLimit of the source) is then charged
against the block meter.  A charge that would push the block meter past
`maxBlockGas` fails that transaction with the out-of-gas category and the
block meter keeps its previous total, so the failure is attributed to the
triggering transaction and cumulative block gas never exceeds the budget. -/
def deliverTx (maxBlockGas gasWanted : Nat) (charges : List Nat)
    (blockConsumed : Nat) : TxOutcome × Nat :=
  let r := txRun gasWanted charges
  let capped := min r.1 gasWanted
  if r.2 = false then (TxOutcome.outOfGas r.1, blockConsumed)
  else if maxBlockGas < blockConsumed + capped then
    (TxOutcome.outOfGas r.1, blockConsumed)
  else (TxOutcome.ok r.1, blockConsumed + capped)

/-- Modelled from the spec: FinalizeBlock's transaction loop of §4.4
(FinalizeBlock is not under src/): each transaction of the block is
delivered in order under the shared block meter; one transaction's failure
does not abort the block and earlier results are retained.  Returns the
per-transaction outcomes and the cumulative block gas consumed. -/
def finalizeBlockGas (maxBlockGas gasWanted : Nat) :
    List (List Nat) → Nat → List TxOutcome × Nat
  | [], blockConsumed => ([], blockConsumed)
  | tx :: rest, blockConsumed =>
    let r := deliverTx maxBlockGas gasWanted tx blockConsumed
    let rs := finalizeBlockGas maxBlockGas gasWanted rest r.2
    (r.1 :: rs.1, rs.2)

/-- Sanity rows of the TestABCI_TxGasLimits table: totals of 11 and 16 are
reported on failure, 10 and 9 on success, under a limit of 10. -/
theorem txRun_matches_test_table :
    txRun 10 [9, 2] = (11, false) ∧
    txRun 10 [0, 5, 1, 1, 1, 1, 1] = (10, true) ∧
    txRun 10 [0, 5, 1, 1, 1, 1] = (9, true) ∧
    txRun 10 [0, 5, 11] = (16, false) := by decide

/-- Sanity rows of the TestABCI_MaxBlockGasLimits table: ten transactions of
gas 10 hit the 100 limit and pass, an 11th fails; twelve transactions of gas
9 fly past the limit on the 12th. -/
theorem finalizeBlockGas_matches_test_rows :
    finalizeBlockGas 100 10 (List.replicate 10 [10]) 0 =
      (List.replicate 10 (TxOutcome.ok 10), 100) ∧
    finalizeBlockGas 100 9 (List.replicate 12 [9]) 0 =
      (List.replicate 11 (TxOutcome.ok 9) ++ [TxOutcome.outOfGas 9], 99) := by
  decide

/- ----------------------------------------------------------------------
Determinism (replay as a pure function of committed state and the block
transactions).
---------------------------------------------------------------------- -/

/-- A committed transaction, embedded as the ordered key-value writes its
messages perform. -/
def Tx := List (String × String)

/-- Apply one transaction's writes to a store. -/
def applyTx (s : Store) (tx : Tx) : Store :=
  tx.foldl (fun st kv => st.set kv.1 kv.2) s

/-- A deterministic stand-in for the content-derived root digest the
versioned store returns at commit (§2): any function of the committed
contents alone works for the determinism statement. -/
def digest (s : Store) : Nat :=
  s.foldl (fun a kv =>
    (a * 31 + kv.1.data.foldl (fun b c => b * 256 + c.toNat) 0) * 31
      + kv.2.data.foldl (fun b c => b * 256 + c.toNat) 0) 7

/-- Modelled from the spec: one node instance of the application coordinator
(the BaseApp implementation is not under src/), reduced to the fields that
survive across blocks: the committed store, the long-lived check overlay and
the last committed height.  Two independent instances may hold different
check overlays (from unrelated CheckTx traffic) while sharing the same
committed state. -/
structure AppInstance where
  committed : Store
  checkOverlay : Store
  lastBlockHeight : Nat

/-- Modelled from the spec: FinalizeBlock followed by Commit for one block
(§4.4): the block's transactions are applied in order to the committed
store, the check overlay is reset to a fresh branch of the new committed
state, and the height advances. -/
def finalizeCommit (inst : AppInstance) (txs : List Tx) : AppInstance :=
  let c := txs.foldl applyTx inst.committed
  { committed := c
    checkOverlay := Store.empty
    lastBlockHeight := inst.lastBlockHeight + 1 }

/-- Replay an ordered sequence of blocks and record the commit record
(height, root digest) of every committed height. -/
def replayDigests (inst : AppInstance) : List (List Tx) → List (Nat × Nat)
  | [] => []
  | b :: bs =>
    let inst2 := finalizeCommit inst b
    (inst2.lastBlockHeight, digest inst2.committed) :: replayDigests inst2 bs

/- ----------------------------------------------------------------------
Block lifecycle: InitChain / FinalizeBlock / Commit heights.

The height discipline is fixed by TestABCI_InitChain_WithInitialHeight,
TestABCI_BeginBlock_WithInitialHeight and TestBaseApp_PrepareCheckState in
src/baseapp/abci_test.go: InitChain with initial height 3 leaves the
expected next block height at 3 (the spec puts last-block-height at
initial height - 1 after InitChain); FinalizeBlock at any other height
panics with "invalid height: 4; expected: 3"; Commit straight after
InitChain, with no FinalizeBlock for the pending height, succeeds and
advances last-block-height to the initial height.
---------------------------------------------------------------------- -/

/-- A fatal protocol violation: in the source these are panics that stop the
node; the embedding surfaces them as a distinguished error type so that
"aborts rather than returning a recoverable failure" is observable. -/
inductive ProtocolFatal where
  | invalidHeight (got expected : Nat)
  | noDeliverState
deriving DecidableEq, Repr

/-- Modelled from the spec: the lifecycle-facing fields of BaseApp (the
implementation is not under src/): the configured initial height, the
last committed height (initial height - 1 right after InitChain, per §4.4),
the committed store and the optional deliver state, which exists only after
InitChain or FinalizeBlock created it and is consumed by Commit. -/
structure BaseApp where
  initialHeight : Nat
  lastBlockHeight : Nat
  committed : Store
  deliverState : Option Store
deriving DecidableEq

/-- A fresh application before InitChain. -/
def BaseApp.fresh : BaseApp :=
  { initialHeight := 1
    lastBlockHeight := 0
    committed := Store.empty
    deliverState := none }

/-- Modelled from the spec: InitChain (§4.4): establishes the starting
height (a zero request height means 1), creates the deliver state holding
the genesis handler's writes, and leaves last-block-height at
initial height - 1. -/
def InitChain (app : BaseApp) (reqInitialHeight : Nat) (genesisWrites : Store) :
    BaseApp :=
  let h := if reqInitialHeight = 0 then 1 else reqInitialHeight
  { app with
    initialHeight := h
    lastBlockHeight := h - 1
    deliverState := some genesisWrites }

/-- Modelled from the spec: FinalizeBlock (§4.4): legal only at
last-block-height + 1; any other height is a fatal protocol violation that
aborts the call and leaves the application state unchanged.  On the legal
height it executes the block's transactions into the deliver state. -/
def FinalizeBlock (app : BaseApp) (height : Nat) (txs : List Tx) :
    Except ProtocolFatal Unit × BaseApp :=
  let expected := app.lastBlockHeight + 1
  if height ≠ expected then
    (Except.error (ProtocolFatal.invalidHeight height expected), app)
  else
    let base := match app.deliverState with
      | some ds => ds
      | none => Store.empty
    (Except.ok (), { app with deliverState := some (txs.foldl applyTx base) })

/-- Modelled from the spec: Commit (§4.4): requires a deliver state
(created by InitChain or FinalizeBlock); promotes its writes into the
committed store, advances last-block-height by one, and discards the
deliver state.  Without a deliver state the call is fatal. -/
def Commit (app : BaseApp) : Except ProtocolFatal Unit × BaseApp :=
  match app.deliverState with
  | none => (Except.error ProtocolFatal.noDeliverState, app)
  | some ds =>
    (Except.ok (),
      { app with
        committed := Store.merge ds app.committed
        lastBlockHeight := app.lastBlockHeight + 1
        deliverState := none })

/-- Sanity replay of TestABCI_BeginBlock_WithInitialHeight: after InitChain
at initial height 3, FinalizeBlock at 4 is the invalid-height violation
(expected 3) while FinalizeBlock at 3 succeeds. -/
theorem finalizeBlock_matches_initial_height_test :
    (FinalizeBlock (InitChain BaseApp.fresh 3 Store.empty) 4 []).1 =
      Except.error (ProtocolFatal.invalidHeight 4 3) ∧
    (FinalizeBlock (InitChain BaseApp.fresh 3 Store.empty) 3 []).1 =
      Except.ok () := ⟨rfl, rfl⟩

/- ----------------------------------------------------------------------
State overlays: check and deliver visibility (§4.1), observed by
TestABCI_CheckTx and TestABCI_Query in src/baseapp/abci_test.go.
---------------------------------------------------------------------- -/

/-- Modelled from the spec: the state overlay manager's three views (§4.1,
the implementation is not under src/): the committed store, the long-lived
check overlay and the per-block deliver overlay, each a branch over the
committed store. -/
structure MultiState where
  committed : Store
  checkOverlay : Store
  deliverOverlay : Store
deriving DecidableEq

/-- Read in check mode: the check overlay over the committed store. -/
def checkGet (st : MultiState) (k : String) : Option String :=
  ovGet st.checkOverlay st.committed k

/-- A CheckTx-run write into the check overlay. -/
def checkSet (st : MultiState) (k v : String) : MultiState :=
  { st with checkOverlay := st.checkOverlay.set k v }

/-- Read in deliver mode: the deliver overlay over the committed store. -/
def deliverGet (st : MultiState) (k : String) : Option String :=
  ovGet st.deliverOverlay st.committed k

/-- A FinalizeBlock message write into the deliver overlay. -/
def deliverSet (st : MultiState) (k v : String) : MultiState :=
  { st with deliverOverlay := st.deliverOverlay.set k v }

/-- Read through Query: only the committed store, never a mutable overlay. -/
def queryGet (st : MultiState) (k : String) : Option String :=
  st.committed.get k

/-- Modelled from the spec: Commit's overlay handling (§4.4): the deliver
overlay is promoted into the committed store, the check overlay is reset to
a fresh branch of the newly committed state, and a fresh deliver overlay is
created for the next block. -/
def commitOverlays (st : MultiState) : MultiState :=
  { committed := Store.merge st.deliverOverlay st.committed
    checkOverlay := Store.empty
    deliverOverlay := Store.empty }

/- ----------------------------------------------------------------------
Proposal preparation and validation (§4.4), observed by
TestABCI_Proposal_Reset_State_Between_Calls in src/baseapp/abci_test.go.
---------------------------------------------------------------------- -/

/-- Modelled from the spec: the proposal-phase state of the application
(PrepareProposal / ProcessProposal are not under src/): the committed store
and the proposal overlay, which survives in the application between calls
but is reset to a fresh branch at the entry of every call. -/
structure ProposalApp where
  committed : Store
  proposalOverlay : Store
deriving DecidableEq

/-- A proposal handler, as the tests install one: it reads through the
overlay view it is given and returns an output together with the key-value
writes it performs on the proposal overlay. -/
def ProposalHandler (α : Type) : Type :=
  (String → Option String) → α × List (String × String)

/-- Modelled from the spec: one PrepareProposal or ProcessProposal call
(§4.4): the proposal overlay is reset to a freshly created branch over the
committed store before the registered handler runs, so no writes of a
previous call for the same height survive into this call; the handler's
writes land in the new overlay and the committed store is never touched. -/
def runProposal {α : Type} (app : ProposalApp) (handler : ProposalHandler α) :
    α × ProposalApp :=
  let fresh : Store := Store.empty
  let r := handler (fun k => ovGet fresh app.committed k)
  (r.1,
    { app with
      proposalOverlay := r.2.foldl (fun ov kv => ov.set kv.1 kv.2) fresh })

/-- The handler installed by TestABCI_Proposal_Reset_State_Between_Calls:
it reports whether the probe key is already present at the start of the
call, then writes that key into the proposal overlay. -/
def probeHandler (probeKey : String) : ProposalHandler Bool :=
  fun read => ((read probeKey).isSome, [(probeKey, probeKey)])

/- ----------------------------------------------------------------------
Block retention height (§4.5), fixed numerically by
TestABCI_GetBlockRetentionHeight in src/baseapp/abci_test.go.
---------------------------------------------------------------------- -/

/-- The configuration knobs that feed the retention-height computation. -/
structure RetentionConfig where
  minRetainBlocks : Nat
  evidenceMaxAgeNumBlocks : Int
  hasSnapshots : Bool
  snapshotInterval : Nat
  snapshotKeepRecent : Nat
deriving DecidableEq

/-- The minimum of two candidate heights where a zero means the candidate is
unset and the other one wins. -/
def minNonZero (x y : Int) : Int :=
  if x = 0 then y else if y = 0 then x else min x y

/-- Modelled from the spec: BaseApp.GetBlockRetentionHeight (§4.5, the
implementation is not under src/; its input-output behaviour is fixed by the
eight cases of TestABCI_GetBlockRetentionHeight in src/baseapp/abci_test.go).
Pruning is disabled (result 0) when minRetainBlocks is 0; otherwise the
evidence floor (when the evidence max-age is positive) and the snapshot
floor (when a snapshot manager is set with a positive keep-recent times
interval window) are folded with the min-retain floor through `minNonZero`,
and a non-positive outcome means the commit height is inside the shortest
window, so nothing may be pruned (result 0).  The computation is split over
the next four definitions; this one is the evidence-derived floor, an unset
0 when the evidence constraint is disabled. -/
def evidenceFloor (maxAge commitHeight : Int) : Int :=
  if 0 < maxAge then commitHeight - maxAge else 0

/-- The snapshot retention window: keep-recent times interval. -/
def snapshotWindow (cfg : RetentionConfig) : Int :=
  (cfg.snapshotKeepRecent : Int) * (cfg.snapshotInterval : Int)

/-- The fold of the constraint floors through `minNonZero`: the evidence
floor (unset 0 when the evidence constraint is disabled), then the snapshot
floor when a snapshot manager is set with a positive window, then the
min-retain floor. -/
def retentionCandidate (cfg : RetentionConfig) (commitHeight : Int) : Int :=
  let r1 :=
    if cfg.hasSnapshots ∧ 0 < snapshotWindow cfg then
      minNonZero (evidenceFloor cfg.evidenceMaxAgeNumBlocks commitHeight)
        (commitHeight - snapshotWindow cfg)
    else evidenceFloor cfg.evidenceMaxAgeNumBlocks commitHeight
  minNonZero r1 (commitHeight - (cfg.minRetainBlocks : Int))

/-- Modelled from the spec (continued): the retention height is 0 when
minRetainBlocks is 0 or the folded candidate is non-positive (the commit
height lies inside the shortest enabled window), and the candidate itself
otherwise. -/
def GetBlockRetentionHeight (cfg : RetentionConfig) (commitHeight : Int) : Int :=
  if cfg.minRetainBlocks = 0 then 0
  else if retentionCandidate cfg commitHeight ≤ 0 then 0
  else retentionCandidate cfg commitHeight

/-- The retention rule exactly as claim C8 words it: the result is 0
whenever any of the three constraints is disabled/zero or the commit height
is below the shortest window, and otherwise it is the max of 0 and the
minimum of the three constraint floors. -/
def retentionHeightClaimC8 (cfg : RetentionConfig) (commitHeight : Int) : Int :=
  let evFloor : Int := commitHeight - cfg.evidenceMaxAgeNumBlocks
  let snapWindow : Int := (cfg.snapshotKeepRecent : Int) * (cfg.snapshotInterval : Int)
  let snapFloor : Int := commitHeight - snapWindow
  let retainFloor : Int := commitHeight - (cfg.minRetainBlocks : Int)
  if cfg.evidenceMaxAgeNumBlocks ≤ 0 ∨ cfg.minRetainBlocks = 0 ∨
      ¬ cfg.hasSnapshots ∨ snapWindow ≤ 0 then 0
  else max 0 (min evFloor (min snapFloor retainFloor))

/-- The list of floors of the enabled constraints at a commit height. -/
def activeFloors (cfg : RetentionConfig) (commitHeight : Int) : List Int :=
  (if 0 < cfg.evidenceMaxAgeNumBlocks then
    [commitHeight - cfg.evidenceMaxAgeNumBlocks] else [])
  ++ (if cfg.hasSnapshots ∧ 0 < snapshotWindow cfg then
    [commitHeight - snapshotWindow cfg] else [])
  ++ [commitHeight - (cfg.minRetainBlocks : Int)]

/-- The eight rows of TestABCI_GetBlockRetentionHeight, reproduced by the
embedded computation: defaults, unbonding time only, iavl snapshot only,
state-sync snapshot only, min retention only, all conditions, no persisted
state and disabled pruning. -/
theorem retention_matches_test_rows :
    GetBlockRetentionHeight ⟨0, 0, false, 0, 0⟩ 499000 = 0 ∧
    GetBlockRetentionHeight ⟨1, 362880, false, 0, 0⟩ 499000 = 136120 ∧
    GetBlockRetentionHeight ⟨1, 0, true, 10000, 1⟩ 499000 = 489000 ∧
    GetBlockRetentionHeight ⟨1, 0, true, 50000, 3⟩ 499000 = 349000 ∧
    GetBlockRetentionHeight ⟨400000, 0, false, 0, 0⟩ 499000 = 99000 ∧
    GetBlockRetentionHeight ⟨400000, 362880, true, 50000, 3⟩ 499000 = 99000 ∧
    GetBlockRetentionHeight ⟨400000, 362880, true, 50000, 3⟩ 10000 = 0 ∧
    GetBlockRetentionHeight ⟨0, 362880, true, 50000, 3⟩ 499000 = 0 := by decide

/- ----------------------------------------------------------------------
Snapshot restore protocol (§4.5), observed by TestABCI_OfferSnapshot_Errors
in src/baseapp/abci_test.go.
---------------------------------------------------------------------- -/

/-- The result variants of OfferSnapshot. -/
inductive OfferResult where
  | accept
  | abort
  | reject
  | rejectFormat
deriving DecidableEq, Repr

/-- A snapshot descriptor as offered over the protocol: height, format,
declared chunk count and the number of chunk hashes in the metadata. -/
structure SnapshotDescriptor where
  height : Nat
  format : Nat
  chunks : Nat
  metadataChunkHashes : Nat
deriving DecidableEq, Repr

/-- The snapshot format this implementation understands. -/
def currentSnapshotFormat : Nat := 2

/-- The restore-side state of the snapshot manager: the snapshot whose
restore is currently in progress, if any. -/
structure SnapshotRestoreState where
  restoring : Option SnapshotDescriptor
deriving DecidableEq, Repr

/-- Modelled from the spec: OfferSnapshot (§4.5, the snapshot manager's
restore entry is not under src/; the observable results are fixed by
TestABCI_OfferSnapshot_Errors in src/baseapp/abci_test.go).  A nil snapshot
is rejected; an unknown format is reject-format; a chunkless snapshot or a
metadata hash count that does not match the declared chunk count is invalid
metadata, rejected; and once those validations pass, an offer made while a
restore is already in progress is answered with abort — at any offered
height — while otherwise the offer is accepted and the restore begins. -/
def offerSnapshot (st : SnapshotRestoreState) (snapshot : Option SnapshotDescriptor) :
    OfferResult × SnapshotRestoreState :=
  match snapshot with
  | none => (OfferResult.reject, st)
  | some s =>
    if s.format ≠ currentSnapshotFormat then (OfferResult.rejectFormat, st)
    else if s.chunks = 0 then (OfferResult.reject, st)
    else if s.metadataChunkHashes ≠ s.chunks then (OfferResult.reject, st)
    else
      match st.restoring with
      | some _ => (OfferResult.abort, st)
      | none => (OfferResult.accept, { restoring := some s })



/- ----------------------------------------------------------------------
Governance genesis (src/x/gov/genesis.go), round-tripped by
TestImportExportQueues_ErrorUnconsistentState in src/unnamed/part_000.
---------------------------------------------------------------------- -/

namespace Gov

/-- A coin multiset: (denomination, amount) pairs; the empty list is the
zero balance. -/
def Coins := List (String × Nat)

instance : DecidableEq Coins := inferInstanceAs (DecidableEq (List (String × Nat)))

/-- Add a single coin into a coin list, merging amounts by denomination. -/
def coinsAddOne : Coins → String × Nat → Coins
  | [], c => [c]
  | d :: rest, c =>
    if d.1 = c.1 then (d.1, d.2 + c.2) :: rest
    else d :: coinsAddOne rest c

/-- Coin addition: fold the right summand into the left. -/
def coinsAdd (a b : Coins) : Coins := b.foldl coinsAddOne a

/-- A zero balance is the empty coin list. -/
def Coins.isZero (c : Coins) : Bool := c.isEmpty

/-- Proposal status, as far as genesis handling distinguishes it. -/
inductive ProposalStatus where
  | depositPeriod
  | votingPeriod
  | passed
  | rejected
  | failed
deriving DecidableEq

/-- A governance proposal, reduced to the fields genesis handling reads. -/
structure Proposal where
  id : Nat
  status : ProposalStatus
  depositEndTime : Nat
  votingEndTime : Nat
deriving DecidableEq

/-- A deposit record. -/
structure Deposit where
  proposalId : Nat
  depositor : String
  amount : Coins
deriving DecidableEq

/-- A vote record. -/
structure Vote where
  proposalId : Nat
  voter : String
  options : List Nat
deriving DecidableEq

/-- Modelled from the spec: the v1 governance parameters (the v1 types
package is not under src/), reduced to a representative record; the genesis
code treats them as an opaque value that is stored and read back. -/
structure GovParams where
  minDeposit : Coins
  maxDepositPeriod : Nat
  votingPeriod : Nat
  quorum : String
  threshold : String
  vetoThreshold : String
deriving DecidableEq

/-- The v1 genesis state of the governance module; `params` is a pointer in
the source, so a missing value is `none`. -/
structure GenesisState where
  startingProposalId : Nat
  deposits : List Deposit
  votes : List Vote
  proposals : List Proposal
  params : Option GovParams
  constitution : String
deriving DecidableEq

/-- Modelled from the spec: the storage the gov keeper maintains (the keeper
implementation is not under src/): each keeper setter writes the
corresponding field and each getter reads it back; collection items that
were never set read as `none`.  The module-account fields stand for the
account keeper and bank keeper collaborators of InitGenesis. -/
structure GovState where
  proposalID : Option Nat
  params : Option GovParams
  constitution : Option String
  deposits : List Deposit
  votes : List Vote
  proposals : List Proposal
  inactiveQueue : List (Nat × Nat)
  activeQueue : List (Nat × Nat)
  moduleAccountExists : Bool
  moduleAccountSet : Bool
  moduleBalance : Coins
deriving DecidableEq

/-- Insert one proposal following the InitGenesis loop of
src/x/gov/genesis.go: a deposit-period proposal enters the inactive queue at
its deposit end time, a voting-period proposal enters the active queue at
its voting end time, and the proposal itself is always stored. -/
def insertProposal (st : GovState) (p : Proposal) : GovState :=
  let st :=
    match p.status with
    | ProposalStatus.depositPeriod =>
      { st with inactiveQueue := st.inactiveQueue ++ [(p.id, p.depositEndTime)] }
    | ProposalStatus.votingPeriod =>
      { st with activeQueue := st.activeQueue ++ [(p.id, p.votingEndTime)] }
    | _ => st
  { st with proposals := st.proposals ++ [p] }

/-- InitGenesis of src/x/gov/genesis.go: stores the starting proposal id,
the parameters (a nil pointer is a panic, embedded as an error), the
constitution; panics when the gov module account is missing; stores every
deposit while accumulating the total deposit amount, stores every vote,
inserts every proposal with its queue entry; marks the module account as
set when its balance is zero; and finally panics unless the module-account
balance equals the accumulated deposit total. -/
def InitGenesis (st : GovState) (data : GenesisState) : Except String GovState :=
  let st := { st with proposalID := some data.startingProposalId }
  match data.params with
  | none => Except.error "nil genesis params dereference"
  | some p =>
    let st := { st with params := some p, constitution := some data.constitution }
    if st.moduleAccountExists = false then
      Except.error "gov module account has not been set"
    else
      let totalDeposits := data.deposits.foldl (fun acc d => coinsAdd acc d.amount) []
      let st := { st with deposits := st.deposits ++ data.deposits }
      let st := { st with votes := st.votes ++ data.votes }
      let st := data.proposals.foldl insertProposal st
      let balance := st.moduleBalance
      let st :=
        if balance.isZero then { st with moduleAccountSet := true } else st
      if balance ≠ totalDeposits then
        Except.error "expected module account balance to equal total deposits"
      else Except.ok st

/-- ExportGenesis of src/x/gov/genesis.go: reads back the starting proposal
id, the stored proposals, constitution and parameters, and collects the
deposits and votes of each stored proposal in proposal order. -/
def ExportGenesis (st : GovState) : Except String GenesisState :=
  match st.proposalID with
  | none => Except.error "proposal id not set"
  | some pid =>
    match st.constitution with
    | none => Except.error "constitution not set"
    | some constitution =>
      match st.params with
      | none => Except.error "params not set"
      | some params =>
        let proposalsDeposits := st.proposals.foldl
          (fun acc p => acc ++ st.deposits.filter (fun d => d.proposalId = p.id)) []
        let proposalsVotes := st.proposals.foldl
          (fun acc p => acc ++ st.votes.filter (fun v => v.proposalId = p.id)) []
        Except.ok
          { startingProposalId := pid
            deposits := proposalsDeposits
            votes := proposalsVotes
            proposals := st.proposals
            params := some params
            constitution := constitution }

/-- Modelled from the spec: v1.DefaultGenesisState (the v1 types package is
not under src/): starting proposal id 1, no deposits, votes or proposals,
the default parameters and an empty constitution. -/
def DefaultGenesisState : GenesisState :=
  { startingProposalId := 1
    deposits := []
    votes := []
    proposals := []
    params := some
      { minDeposit := [("stake", 10000000)]
        maxDepositPeriod := 172800
        votingPeriod := 172800
        quorum := "0.334"
        threshold := "0.5"
        vetoThreshold := "0.334" }
    constitution := "" }

/-- A freshly initialized context in which the gov module account exists
with a zero balance and nothing has been stored yet. -/
def freshGovState : GovState :=
  { proposalID := none
    params := none
    constitution := none
    deposits := []
    votes := []
    proposals := []
    inactiveQueue := []
    activeQueue := []
    moduleAccountExists := true
    moduleAccountSet := false
    moduleBalance := [] }

end Gov

/- ----------------------------------------------------------------------
Claim theorems.
---------------------------------------------------------------------- -/

/-- C1: two independent instances that replay the identical ordered
transaction sequence from the identical prior committed state (and height)
produce an identical root digest at every committed height, even when their
long-lived check overlays differ from unrelated CheckTx traffic. -/
theorem c1_replay_determinism (i1 i2 : AppInstance) (blocks : List (List Tx))
    (hc : i1.committed = i2.committed)
    (hh : i1.lastBlockHeight = i2.lastBlockHeight) :
    replayDigests i1 blocks = replayDigests i2 blocks := by
  cases blocks with
  | nil => rfl
  | cons b bs => simp only [replayDigests, finalizeCommit, hc, hh]

/-- Witness for C1: two instances sharing the committed state and height
but holding different check overlays replay to the same digests. -/
theorem c1_replay_determinism_witness :
    replayDigests ⟨[("a", "1")], [("junk", "x")], 0⟩ [[[("b", "2")]], []] =
      replayDigests ⟨[("a", "1")], [], 0⟩ [[[("b", "2")]], []] :=
  c1_replay_determinism _ _ _ rfl rfl

/-- C2: with block max gas 100 and per-transaction gas 10, delivering 11
identical transactions in one FinalizeBlock succeeds on the first 10,
retains their results, fails exactly the 11th with the out-of-gas category,
and leaves cumulative block gas consumed at exactly 100. -/
theorem c2_block_gas_example :
    finalizeBlockGas 100 10 (List.replicate 11 [10]) 0 =
      (List.replicate 10 (TxOutcome.ok 10) ++ [TxOutcome.outOfGas 10], 100) ∧
    (finalizeBlockGas 100 10 (List.replicate 11 [10]) 0).1.take 10 =
      List.replicate 10 (TxOutcome.ok 10) ∧
    (finalizeBlockGas 100 10 (List.replicate 11 [10]) 0).1.getLast? =
      some (TxOutcome.outOfGas 10) ∧
    (finalizeBlockGas 100 10 (List.replicate 11 [10]) 0).2 = 100 := by
  decide

/-- Counterexample to C3 as stated: the failing transaction with charges 9
then 2 under an enforced gas-wanted of 10 reports gas used 11, exceeding
gas wanted — exactly the expected-result row of TestABCI_TxGasLimits in
src/baseapp/abci_test.go. -/
theorem c3_gas_used_exceeds_wanted_counterexample :
    txRun 10 [9, 2] = (11, false) ∧ ¬ (txRun 10 [9, 2]).1 ≤ 10 := by
  decide

theorem consumeCharges_ok (limit : Nat) (charges : List Nat) :
    ∀ acc, acc ≤ limit → (consumeCharges limit acc charges).2 = true →
      (consumeCharges limit acc charges).1 = acc + charges.sum ∧
      (consumeCharges limit acc charges).1 ≤ limit := by
  induction charges with
  | nil =>
    intro acc hacc _
    simpa [consumeCharges] using hacc
  | cons c cs ih =>
    intro acc hacc hok
    by_cases h : limit < acc + c
    · simp [consumeCharges, h] at hok
    · simp only [consumeCharges, if_neg h] at hok ⊢
      have h2 := ih (acc + c) (by omega) hok
      refine ⟨?_, h2.2⟩
      rw [h2.1]
      simp [List.sum_cons]
      omega

theorem consumeCharges_fail (limit : Nat) (charges : List Nat) :
    ∀ acc, (consumeCharges limit acc charges).2 = false →
      limit < (consumeCharges limit acc charges).1 ∧
      ∃ n, (consumeCharges limit acc charges).1 = acc + (charges.take n).sum := by
  induction charges with
  | nil =>
    intro acc hfail
    simp [consumeCharges] at hfail
  | cons c cs ih =>
    intro acc hfail
    by_cases h : limit < acc + c
    · refine ⟨by simp [consumeCharges, h], 1, ?_⟩
      simp [consumeCharges, h]
    · simp only [consumeCharges, if_neg h] at hfail ⊢
      obtain ⟨hlt, n, hn⟩ := ih (acc + c) hfail
      refine ⟨hlt, n + 1, ?_⟩
      rw [hn]
      simp [List.take, List.sum_cons]
      omega

/-- C3 amended: gas used never exceeds gas wanted for a transaction that
succeeds, and it then equals the total of the charges; a transaction that
fails reports all gas consumed up to and including the failing charge (a
total of some initial run of its charges, never refunded), which strictly
exceeds gas wanted by at most the width of that final charge. -/
theorem c3_gas_monotonicity_amended (gasWanted : Nat) (charges : List Nat) :
    ((txRun gasWanted charges).2 = true →
      (txRun gasWanted charges).1 = charges.sum ∧
      (txRun gasWanted charges).1 ≤ gasWanted) ∧
    ((txRun gasWanted charges).2 = false →
      gasWanted < (txRun gasWanted charges).1 ∧
      ∃ n, (txRun gasWanted charges).1 = (charges.take n).sum) := by
  constructor
  · intro h
    have h2 := consumeCharges_ok gasWanted charges 0 (Nat.zero_le _) h
    simpa [txRun] using h2
  · intro h
    have h2 := consumeCharges_fail gasWanted charges 0 h
    simpa [txRun] using h2

/-- Witness for C3 amended, at the failing table row of
TestABCI_TxGasLimits: gas used 11 exceeds the limit 10 and is the total of
an initial run of the charges. -/
theorem c3_gas_monotonicity_amended_witness :
    10 < (txRun 10 [9, 2]).1 ∧
    ∃ n, (txRun 10 [9, 2]).1 = ([9, 2].take n).sum :=
  (c3_gas_monotonicity_amended 10 [9, 2]).2 (by decide)

/-- Counterexample to C4 as stated: after InitChain with initial height 3
and no FinalizeBlock for the pending height, Commit is not fatal — it
completes and advances last-block-height to 3, exactly as
TestABCI_InitChain_WithInitialHeight in src/baseapp/abci_test.go requires. -/
theorem c4_commit_without_finalize_succeeds_counterexample :
    (Commit (InitChain BaseApp.fresh 3 Store.empty)).1 = Except.ok () ∧
    (Commit (InitChain BaseApp.fresh 3 Store.empty)).2.lastBlockHeight = 3 := by
  constructor
  · rfl
  · decide

/-- C4 amended: Commit is fatal (and commits nothing) only when no deliver
state exists, that is, when neither InitChain nor FinalizeBlock has run;
once InitChain has created the deliver state, Commit without a
FinalizeBlock for the pending height completes and advances
last-block-height to the initial height. -/
theorem c4_commit_requires_deliver_state_amended (app : BaseApp) (h0 : Nat)
    (g : Store) (h : app.deliverState = none) (hh : h0 ≠ 0) :
    (Commit app).1 = Except.error ProtocolFatal.noDeliverState ∧
    (Commit app).2 = app ∧
    (Commit (InitChain app h0 g)).1 = Except.ok () ∧
    (Commit (InitChain app h0 g)).2.lastBlockHeight = h0 := by
  refine ⟨?_, ?_, ?_, ?_⟩
  · simp [Commit, h]
  · simp [Commit, h]
  · simp [Commit, InitChain]
  · simp [Commit, InitChain, hh]
    omega

/-- Witness for C4 amended at the configuration of
TestABCI_InitChain_WithInitialHeight: a fresh application has no deliver
state, and committing after InitChain at initial height 3 lands at height 3. -/
theorem c4_commit_requires_deliver_state_amended_witness :
    (Commit BaseApp.fresh).1 = Except.error ProtocolFatal.noDeliverState ∧
    (Commit BaseApp.fresh).2 = BaseApp.fresh ∧
    (Commit (InitChain BaseApp.fresh 3 Store.empty)).1 = Except.ok () ∧
    (Commit (InitChain BaseApp.fresh 3 Store.empty)).2.lastBlockHeight = 3 :=
  c4_commit_requires_deliver_state_amended BaseApp.fresh 3 Store.empty rfl
    (by decide)

/-- C5: FinalizeBlock succeeds exactly at last-block-height + 1; at every
other height it is a fatal protocol error — the distinguished invalid-height
violation, not a recoverable per-transaction failure — and the application
state, in particular last-block-height, is unchanged. -/
theorem c5_finalize_height_contract (app : BaseApp) (height : Nat)
    (txs : List Tx) :
    ((FinalizeBlock app height txs).1 = Except.ok () ↔
      height = app.lastBlockHeight + 1) ∧
    (height ≠ app.lastBlockHeight + 1 →
      (FinalizeBlock app height txs).1 =
        Except.error (ProtocolFatal.invalidHeight height (app.lastBlockHeight + 1)) ∧
      (FinalizeBlock app height txs).2 = app) := by
  by_cases h : height = app.lastBlockHeight + 1
  · simp [FinalizeBlock, h]
  · simp [FinalizeBlock, h]

/-- Witness for C5 at the scenario of TestABCI_BeginBlock_WithInitialHeight:
after InitChain at initial height 3, FinalizeBlock at height 4 aborts with
the invalid-height violation (expected 3) and leaves the state unchanged. -/
theorem c5_finalize_height_contract_witness :
    (FinalizeBlock (InitChain BaseApp.fresh 3 Store.empty) 4 []).1 =
      Except.error (ProtocolFatal.invalidHeight 4
        ((InitChain BaseApp.fresh 3 Store.empty).lastBlockHeight + 1)) ∧
    (FinalizeBlock (InitChain BaseApp.fresh 3 Store.empty) 4 []).2 =
      InitChain BaseApp.fresh 3 Store.empty :=
  (c5_finalize_height_contract (InitChain BaseApp.fresh 3 Store.empty) 4 []).2
    (by decide)

theorem Store.get_merge (a b : Store) (k : String) :
    (Store.merge a b).get k = ovGet a b k := by
  induction a with
  | nil => simp [Store.merge, ovGet, Store.get, List.append]
  | cons hd tl ih =>
    obtain ⟨x, y⟩ := hd
    by_cases h : x = k
    · simp [Store.merge, Store.get, ovGet, List.append, h]
    · have h2 : Store.merge ((x, y) :: tl) b = (x, y) :: Store.merge tl b := rfl
      rw [h2]
      have h3 : Store.get ((x, y) :: Store.merge tl b) k =
          Store.get (Store.merge tl b) k := by simp [Store.get, h]
      have h4 : ovGet ((x, y) :: tl) b k = ovGet tl b k := by
        simp [ovGet, Store.get, h]
      rw [h3, ih, h4]

/-- C6: a write in the check overlay is visible to every subsequent
check-overlay read, survives unrelated later check writes, and is cleared
when the check overlay is reset at Commit; a write in the deliver overlay is
visible to the remaining messages of that block, is never visible to the
check overlay or to a Query before Commit, and becomes visible to Query
once Commit promotes the deliver overlay. -/
theorem c6_overlay_visibility (st : MultiState) (k k2 v v2 : String)
    (hck : st.committed.get k = none)
    (hdk : st.deliverOverlay.get k = none)
    (hch : st.checkOverlay.get k = none)
    (hne : k2 ≠ k) :
    (checkGet (checkSet st k v) k = some v) ∧
    (checkGet (checkSet (checkSet st k v) k2 v2) k = some v) ∧
    (checkGet (commitOverlays (checkSet st k v)) k = none) ∧
    (deliverGet (deliverSet st k v) k = some v) ∧
    (deliverGet (deliverSet (deliverSet st k v) k2 v2) k = some v) ∧
    (checkGet (deliverSet st k v) k = none) ∧
    (queryGet (deliverSet st k v) k = none) ∧
    (queryGet (commitOverlays (deliverSet st k v)) k = some v) := by
  refine ⟨?_, ?_, ?_, ?_, ?_, ?_, ?_, ?_⟩
  · simp [checkGet, checkSet, ovGet, Store.get_set_same]
  · simp [checkGet, checkSet, ovGet, Store.get_set_same,
      Store.get_set_other _ _ _ _ hne]
  · simp [checkGet, commitOverlays, checkSet, ovGet, Store.get,
      Store.get_merge, hck, hdk]
  · simp [deliverGet, deliverSet, ovGet, Store.get_set_same]
  · simp [deliverGet, deliverSet, ovGet, Store.get_set_same,
      Store.get_set_other _ _ _ _ hne]
  · simp [checkGet, deliverSet, ovGet, hch, hck]
  · simp [queryGet, deliverSet, hck]
  · simp [queryGet, commitOverlays, deliverSet, Store.get_merge, ovGet,
      Store.get_set_same]

/-- Witness for C6 on a concrete empty multi-state with the keys of
TestABCI_CheckTx and TestABCI_Query. -/
theorem c6_overlay_visibility_witness :
    (checkGet (checkSet ⟨[], [], []⟩ "hello" "goodbye") "hello" = some "goodbye") ∧
    (checkGet (checkSet (checkSet ⟨[], [], []⟩ "hello" "goodbye") "other" "x")
      "hello" = some "goodbye") ∧
    (checkGet (commitOverlays (checkSet ⟨[], [], []⟩ "hello" "goodbye")) "hello" =
      none) ∧
    (deliverGet (deliverSet ⟨[], [], []⟩ "hello" "goodbye") "hello" =
      some "goodbye") ∧
    (deliverGet (deliverSet (deliverSet ⟨[], [], []⟩ "hello" "goodbye")
      "other" "x") "hello" = some "goodbye") ∧
    (checkGet (deliverSet ⟨[], [], []⟩ "hello" "goodbye") "hello" = none) ∧
    (queryGet (deliverSet ⟨[], [], []⟩ "hello" "goodbye") "hello" = none) ∧
    (queryGet (commitOverlays (deliverSet ⟨[], [], []⟩ "hello" "goodbye"))
      "hello" = some "goodbye") :=
  c6_overlay_visibility ⟨[], [], []⟩ "hello" "other" "goodbye" "x" rfl rfl rfl
    (by decide)

/-- C7: PrepareProposal and ProcessProposal calls repeated for the same
height with the same inputs return the same output each time, never touch
the committed store, and leak no state between calls: the probe key written
to the proposal overlay during one call is recorded there, yet every call —
first or repeated — observes it absent at its start, because each call runs
on a freshly reset overlay. -/
theorem c7_proposal_reset_idempotent {α : Type} (app : ProposalApp)
    (handler : ProposalHandler α) (probeKey : String)
    (habs : app.committed.get probeKey = none) :
    ((runProposal (runProposal app handler).2 handler).1 =
      (runProposal app handler).1) ∧
    ((runProposal app handler).2.committed = app.committed) ∧
    ((runProposal app (probeHandler probeKey)).2.proposalOverlay.get probeKey =
      some probeKey) ∧
    ((runProposal app (probeHandler probeKey)).1 = false) ∧
    ((runProposal (runProposal app (probeHandler probeKey)).2
      (probeHandler probeKey)).1 = false) := by
  refine ⟨rfl, rfl, ?_, ?_, ?_⟩
  · simp [runProposal, probeHandler, Store.get_set_same, Store.empty]
  · simp [runProposal, probeHandler, ovGet, Store.empty, Store.get, habs]
  · simp [runProposal, probeHandler, ovGet, Store.empty, Store.get, habs]

/-- Witness for C7 on an empty committed store with the probe key of
TestABCI_Proposal_Reset_State_Between_Calls. -/
theorem c7_proposal_reset_idempotent_witness :
    ((runProposal (runProposal ⟨[], []⟩ (probeHandler "some-key")).2
      (probeHandler "some-key")).1 = (runProposal ⟨[], []⟩
      (probeHandler "some-key")).1) ∧
    ((runProposal ⟨[], []⟩ (probeHandler "some-key")).2.committed = []) ∧
    ((runProposal ⟨[], []⟩
      (probeHandler "some-key")).2.proposalOverlay.get "some-key" =
      some "some-key") ∧
    ((runProposal ⟨[], []⟩ (probeHandler "some-key")).1 = false) ∧
    ((runProposal (runProposal ⟨[], []⟩ (probeHandler "some-key")).2
      (probeHandler "some-key")).1 = false) :=
  c7_proposal_reset_idempotent ⟨[], []⟩ (probeHandler "some-key") "some-key" rfl

/-- Counterexample to C8 as stated: in the "pruning min retention only"
configuration of TestABCI_GetBlockRetentionHeight (min-retain 400000, the
evidence and snapshot constraints disabled) the claim's rule — 0 whenever
any constraint is disabled/zero — yields 0, but the computed retention
height at commit height 499000 is 99000, the value the test requires. -/
theorem c8_retention_claim_counterexample :
    retentionHeightClaimC8 ⟨400000, 0, false, 0, 0⟩ 499000 = 0 ∧
    GetBlockRetentionHeight ⟨400000, 0, false, 0, 0⟩ 499000 = 99000 ∧
    retentionHeightClaimC8 ⟨400000, 0, false, 0, 0⟩ 499000 ≠
      GetBlockRetentionHeight ⟨400000, 0, false, 0, 0⟩ 499000 := by
  decide

/-- Counterexample to C9 as stated: with a height-1 restore in progress,
offering a snapshot of the strictly higher height 2 is answered with abort
and the in-progress restore is kept — it is not superseded — exactly as the
closing offers of TestABCI_OfferSnapshot_Errors require. -/
theorem c9_offer_snapshot_supersede_counterexample :
    (offerSnapshot ⟨none⟩ (some ⟨1, 2, 3, 3⟩)).1 = OfferResult.accept ∧
    (offerSnapshot ⟨none⟩ (some ⟨1, 2, 3, 3⟩)).2.restoring = some ⟨1, 2, 3, 3⟩ ∧
    (1 : Nat) < 2 ∧
    (offerSnapshot (offerSnapshot ⟨none⟩ (some ⟨1, 2, 3, 3⟩)).2
      (some ⟨2, 2, 3, 3⟩)).1 = OfferResult.abort ∧
    (offerSnapshot (offerSnapshot ⟨none⟩ (some ⟨1, 2, 3, 3⟩)).2
      (some ⟨2, 2, 3, 3⟩)).2.restoring = some ⟨1, 2, 3, 3⟩ := by
  decide

/-- C9 amended: while a snapshot restore is in progress, offering any
well-formed snapshot — whatever its height, higher included — returns the
abort result and leaves the in-progress restore untouched; there is no
supersede path. -/
theorem c9_offer_snapshot_abort_amended (st : SnapshotRestoreState)
    (d s : SnapshotDescriptor) (hprog : st.restoring = some d)
    (hfmt : s.format = currentSnapshotFormat) (hch : s.chunks ≠ 0)
    (hmeta : s.metadataChunkHashes = s.chunks) :
    (offerSnapshot st (some s)).1 = OfferResult.abort ∧
    (offerSnapshot st (some s)).2 = st := by
  simp [offerSnapshot, hfmt, hch, hmeta, hprog]

/-- Witness for C9 amended: the height-2 offer of the counterexample
scenario aborts and leaves the state unchanged. -/
theorem c9_offer_snapshot_abort_amended_witness :
    (offerSnapshot ⟨some ⟨1, 2, 3, 3⟩⟩ (some ⟨2, 2, 3, 3⟩)).1 =
      OfferResult.abort ∧
    (offerSnapshot ⟨some ⟨1, 2, 3, 3⟩⟩ (some ⟨2, 2, 3, 3⟩)).2 =
      (⟨some ⟨1, 2, 3, 3⟩⟩ : SnapshotRestoreState) :=
  c9_offer_snapshot_abort_amended ⟨some ⟨1, 2, 3, 3⟩⟩ ⟨1, 2, 3, 3⟩ ⟨2, 2, 3, 3⟩
    rfl rfl (by decide) rfl

/-- C10: in a context where the gov module account exists with a zero
balance and no proposal has been stored, InitGenesis with the default
genesis state followed by ExportGenesis succeeds and returns exactly the
default genesis state. -/
theorem c10_gov_genesis_round_trip (st : Gov.GovState)
    (hacc : st.moduleAccountExists = true)
    (hbal : st.moduleBalance = [])
    (hprops : st.proposals = []) :
    (Gov.InitGenesis st Gov.DefaultGenesisState).bind Gov.ExportGenesis =
      Except.ok Gov.DefaultGenesisState := by
  simp [Gov.InitGenesis, Gov.ExportGenesis, Gov.DefaultGenesisState, hacc,
    hbal, hprops, Gov.Coins.isZero, Gov.coinsAdd, Except.bind]

/-- Witness for C10 on the fresh gov context of the round-trip test. -/
theorem c10_gov_genesis_round_trip_witness :
    (Gov.InitGenesis Gov.freshGovState Gov.DefaultGenesisState).bind
      Gov.ExportGenesis = Except.ok Gov.DefaultGenesisState :=
  c10_gov_genesis_round_trip Gov.freshGovState rfl rfl rfl

theorem minNonZero_eq_or (x y : Int) : minNonZero x y = x ∨ minNonZero x y = y := by
  unfold minNonZero
  split_ifs
  · exact Or.inr rfl
  · exact Or.inl rfl
  · exact min_choice x y

theorem minNonZero_le (x y B : Int) (hx : x ≤ B) (hy : y ≤ B) :
    minNonZero x y ≤ B := by
  rcases minNonZero_eq_or x y with h | h <;> omega

theorem minNonZero_of_ne (x y : Int) (hx : x ≠ 0) (hy : y ≠ 0) :
    minNonZero x y = min x y := by
  unfold minNonZero
  simp [hx, hy]

theorem minNonZero_zero_left (y : Int) : minNonZero 0 y = y := by
  simp [minNonZero]

theorem evidenceFloor_le (maxAge c : Int) (hc : 0 ≤ c) :
    evidenceFloor maxAge c ≤ c := by
  unfold evidenceFloor
  split_ifs <;> omega

theorem snapshotWindow_nonneg (cfg : RetentionConfig) : 0 ≤ snapshotWindow cfg :=
  mul_nonneg (Int.natCast_nonneg _) (Int.natCast_nonneg _)

theorem retentionCandidate_le (cfg : RetentionConfig) (c : Int) (hc : 0 ≤ c) :
    retentionCandidate cfg c ≤ c := by
  simp only [retentionCandidate]
  refine minNonZero_le _ _ _ ?_ ?_
  · split_ifs with h
    · refine minNonZero_le _ _ _ (evidenceFloor_le _ _ hc) ?_
      have := snapshotWindow_nonneg cfg
      omega
    · exact evidenceFloor_le _ _ hc
  · have : (0:Int) ≤ (cfg.minRetainBlocks : Int) := Int.natCast_nonneg _
    omega

/-- C8 amended: the retention height is never negative and never exceeds the
commit height; it is 0 when the min-retain-blocks constraint is disabled
(zero) — regardless of the other constraints — and, when min-retain-blocks is
enabled and every active floor is nonzero, it equals max(0, min over the
active constraint floors): the evidence floor when the evidence max-age is
positive, the snapshot floor when a snapshot manager is set with a positive
window, and the min-retain floor; a disabled constraint is skipped from the
minimum rather than forcing the result to 0, and a non-positive minimum
(commit height below the shortest active window) yields 0. -/
theorem c8_retention_height_amended (cfg : RetentionConfig)
    (commitHeight : Int) (hc : 0 ≤ commitHeight) :
    0 ≤ GetBlockRetentionHeight cfg commitHeight ∧
    GetBlockRetentionHeight cfg commitHeight ≤ commitHeight ∧
    (cfg.minRetainBlocks = 0 → GetBlockRetentionHeight cfg commitHeight = 0) ∧
    (cfg.minRetainBlocks ≠ 0 →
      (∀ f ∈ activeFloors cfg commitHeight, f ≠ 0) →
      GetBlockRetentionHeight cfg commitHeight =
        max 0 ((activeFloors cfg commitHeight).foldr min
          (commitHeight - (cfg.minRetainBlocks : Int)))) := by
  refine ⟨?_, ?_, ?_, ?_⟩
  · unfold GetBlockRetentionHeight
    split_ifs <;> omega
  · have hcand := retentionCandidate_le cfg commitHeight hc
    unfold GetBlockRetentionHeight
    split_ifs <;> omega
  · intro hm
    simp [GetBlockRetentionHeight, hm]
  · intro hm hf
    by_cases hev : 0 < cfg.evidenceMaxAgeNumBlocks <;>
      by_cases hsnap : cfg.hasSnapshots = true ∧ 0 < snapshotWindow cfg
    · have hfl : activeFloors cfg commitHeight =
          [commitHeight - cfg.evidenceMaxAgeNumBlocks,
           commitHeight - snapshotWindow cfg,
           commitHeight - (cfg.minRetainBlocks : Int)] := by
        simp [activeFloors, hev, hsnap]
      rw [hfl] at hf ⊢
      simp only [List.forall_mem_cons, List.forall_mem_singleton,
        List.mem_nil_iff, false_implies, implies_true, and_true] at hf
      obtain ⟨h1, h2, h3⟩ := hf
      simp only [List.foldr_cons, List.foldr_nil]
      simp only [GetBlockRetentionHeight, retentionCandidate, evidenceFloor,
        if_pos hev, if_pos hsnap, if_neg hm]
      rw [minNonZero_of_ne _ _ h1 h2,
        minNonZero_of_ne _ _ (by rcases min_choice (commitHeight -
          cfg.evidenceMaxAgeNumBlocks) (commitHeight - snapshotWindow cfg) with
          h | h <;> omega) h3]
      split_ifs <;> omega
    · have hfl : activeFloors cfg commitHeight =
          [commitHeight - cfg.evidenceMaxAgeNumBlocks,
           commitHeight - (cfg.minRetainBlocks : Int)] := by
        simp [activeFloors, hev, hsnap]
      rw [hfl] at hf ⊢
      simp only [List.forall_mem_cons, List.forall_mem_singleton,
        List.mem_nil_iff, false_implies, implies_true, and_true] at hf
      obtain ⟨h1, h3⟩ := hf
      simp only [List.foldr_cons, List.foldr_nil]
      simp only [GetBlockRetentionHeight, retentionCandidate, evidenceFloor,
        if_pos hev, if_neg hsnap, if_neg hm]
      rw [minNonZero_of_ne _ _ h1 h3]
      split_ifs <;> omega
    · have hfl : activeFloors cfg commitHeight =
          [commitHeight - snapshotWindow cfg,
           commitHeight - (cfg.minRetainBlocks : Int)] := by
        simp [activeFloors, hev, hsnap]
      rw [hfl] at hf ⊢
      simp only [List.forall_mem_cons, List.forall_mem_singleton,
        List.mem_nil_iff, false_implies, implies_true, and_true] at hf
      obtain ⟨h2, h3⟩ := hf
      simp only [List.foldr_cons, List.foldr_nil]
      simp only [GetBlockRetentionHeight, retentionCandidate, evidenceFloor,
        if_neg hev, if_pos hsnap, if_neg hm]
      rw [minNonZero_zero_left, minNonZero_of_ne _ _ h2 h3]
      split_ifs <;> omega
    · have hfl : activeFloors cfg commitHeight =
          [commitHeight - (cfg.minRetainBlocks : Int)] := by
        simp [activeFloors, hev, hsnap]
      rw [hfl] at hf ⊢
      simp only [List.forall_mem_singleton, List.mem_nil_iff,
        false_implies, implies_true, and_true] at hf
      simp only [List.foldr_cons, List.foldr_nil]
      simp only [GetBlockRetentionHeight, retentionCandidate, evidenceFloor,
        if_neg hev, if_neg hsnap, if_neg hm]
      rw [minNonZero_zero_left]
      split_ifs <;> omega

/-- Witness for C8 amended at the "pruning all conditions" row of
TestABCI_GetBlockRetentionHeight: all three constraints enabled, retention
99000 at commit height 499000. -/
theorem c8_retention_height_amended_witness :
    0 ≤ GetBlockRetentionHeight ⟨400000, 362880, true, 50000, 3⟩ 499000 ∧
    GetBlockRetentionHeight ⟨400000, 362880, true, 50000, 3⟩ 499000 ≤ 499000 ∧
    ((400000 : Nat) = 0 →
      GetBlockRetentionHeight ⟨400000, 362880, true, 50000, 3⟩ 499000 = 0) ∧
    ((400000 : Nat) ≠ 0 →
      (∀ f ∈ activeFloors ⟨400000, 362880, true, 50000, 3⟩ 499000, f ≠ 0) →
      GetBlockRetentionHeight ⟨400000, 362880, true, 50000, 3⟩ 499000 =
        max 0 ((activeFloors ⟨400000, 362880, true, 50000, 3⟩ 499000).foldr min
          (499000 - ((400000 : Nat) : Int)))) :=
  c8_retention_height_amended ⟨400000, 362880, true, 50000, 3⟩ 499000 (by decide)

end CosmosSdk
